import Mathlib

/-!
Verification development for the Makerfabs-ESP32-UWB multi-anchor ranging
engine (DW1000Ranging.cpp / DW1000Device.h).  The C++ engine is shallowly
embedded: machine integers become Nat / Int with explicit bounds, the global
static state of DW1000RangingClass becomes an explicit RangingState record,
callback invocations and radio transmissions become an explicit event list,
and C++ functions that fall off the end without returning become
Option-valued functions.

Floating-point fields of a peer record (range, RX power, first-path power,
quality) are outside the model; no theorem below depends on them.

The repository ships only DW1000Ranging.cpp and DW1000Device.h for the core.
DW1000Time.cpp, DW1000Mac.cpp and DW1000Device.cpp are referenced but absent
from the sources, so the handful of leaf operations they provide (wrap-safe
timestamp arithmetic, frame encode/decode, per-device reset and timeout
predicates) are modelled from the specification; each such definition is
marked in its doc comment.
-/

namespace DW1000R

/-! Wire message-kind constants, from DW1000Ranging.h. -/

def POLL : Nat := 0
def POLL_ACK : Nat := 1
def RANGE : Nat := 2
def RANGE_REPORT : Nat := 3
def RANGE_FAILED : Nat := 255
def BLINK : Nat := 4
def RANGING_INIT : Nat := 5

/-! Per-device expected-message constants, from the MessageType enum in
DW1000Device.h.  Their numeric values coincide with the wire constants. -/

def MSG_POLL : Nat := 0
def MSG_POLL_ACK : Nat := 1
def MSG_RANGE : Nat := 2
def MSG_RANGE_REPORT : Nat := 3
def MSG_RANGE_FAILED : Nat := 255
def MSG_BLINK : Nat := 4
def MSG_RANGING_INIT : Nat := 5

/-! Framing constants.  FC bytes are from the frame-control patterns the
engine matches on; SHORT_MAC_LEN / LONG_MAC_LEN are the MAC-header lengths
(short header: 2 FC + 1 seq + 2 PAN + 2 dest + 2 src = 9; long header:
2 FC + 1 seq + 2 PAN + 8 dest EUI + 2 src = 15), consistent with the
size accounting comment in DW1000Ranging.h. -/

def FC_1_BLINK : Nat := 0xC5
def FC_1 : Nat := 0x41
def FC_2 : Nat := 0x8C
def FC_2_SHORT : Nat := 0x88
def SHORT_MAC_LEN : Nat := 9
def LONG_MAC_LEN : Nat := 15

def LEN_DATA : Nat := 120
def MAX_DEVICES : Nat := 4

/-- Modelled from the spec: the message intake queue capacity
(INTAKE_QUEUE_SIZE, default 10).  The header revision defining
MESSAGE_QUEUE_SIZE is not among the sources. -/
def MESSAGE_QUEUE_SIZE : Nat := 10

def TAG : Nat := 0
def ANCHOR : Nat := 1

def DEFAULT_TIMER_DELAY : Nat := 80
def DEFAULT_REPLY_DELAY_TIME : Nat := 7000

/-- Modelled from the spec: the 40-bit device-time modulus 2 ^ 40
(TIME_OVERFLOW in DW1000Time.h, which is not among the sources). -/
def TIME_OVERFLOW : Int := 1099511627776

/-- Modelled from the spec: DW1000Time subtraction is raw 64-bit integer
subtraction of the two counter values (DW1000Time.cpp is not among the
sources). -/
def timeSub (a b : Int) : Int := a - b

/-- Modelled from the spec: DW1000Time.wrap adds the 40-bit modulus when the
stored value is negative, so that a counter difference is taken modulo 2 ^ 40
and is non-negative (DW1000Time.cpp is not among the sources). -/
def timeWrap (t : Int) : Int := if t < 0 then t + TIME_OVERFLOW else t

/-- Wrap-safe difference of two device timestamps, as the engine writes it:
(a - b).wrap(). -/
def subWrap (a b : Int) : Int := timeWrap (timeSub a b)

/-! Protocol sub-state, from the ProtocolState enum in DW1000Device.h. -/

inductive ProtocolState where
  | PROTOCOL_IDLE
  | PROTOCOL_POLL_SENT
  | PROTOCOL_POLL_ACK_SENT
  | PROTOCOL_RANGE_SENT
  | PROTOCOL_RANGE_REPORT_SENT
  | PROTOCOL_FAILED
  deriving DecidableEq, Repr

/-- Peer record, from class DW1000Device (DW1000Device.h).  Timestamps are
the 40-bit device-time values stored in the six DW1000Time members; activity
fields are milliseconds-since-boot values.  The float members (_range,
_RXPower, _FPPower, _quality) are outside the model. -/
structure DW1000Device where
  ownAddress : List Nat
  shortAddress : Nat × Nat
  index : Nat
  replyDelayTimeUS : Nat
  activity : Nat
  timePollSent : Int
  timePollReceived : Int
  timePollAckSent : Int
  timePollAckReceived : Int
  timeRangeSent : Int
  timeRangeReceived : Int
  protocolState : ProtocolState
  expectedMsgId : Nat
  sentAck : Bool
  receivedAck : Bool
  protocolFailed : Bool
  lastProtocolActivity : Nat
  deriving DecidableEq, Repr

instance : Inhabited DW1000Device :=
  ⟨{ ownAddress := [0, 0, 0, 0, 0, 0, 0, 0]
     shortAddress := (0, 0)
     index := 0
     replyDelayTimeUS := 0
     activity := 0
     timePollSent := 0
     timePollReceived := 0
     timePollAckSent := 0
     timePollAckReceived := 0
     timeRangeSent := 0
     timeRangeReceived := 0
     protocolState := ProtocolState.PROTOCOL_IDLE
     expectedMsgId := MSG_POLL
     sentAck := false
     receivedAck := false
     protocolFailed := false
     lastProtocolActivity := 0 }⟩

/-- Modelled from the spec: DW1000Device::resetProtocolState
(DW1000Device.cpp is not among the sources).  Per the idempotent-state-reset
law: sub-state IDLE, protocol_failed false, both ack flags false,
last_protocol_activity set to now. -/
def resetProtocolState (d : DW1000Device) (now : Nat) : DW1000Device :=
  { d with protocolState := ProtocolState.PROTOCOL_IDLE
           protocolFailed := false
           sentAck := false
           receivedAck := false
           lastProtocolActivity := now }

/-- Modelled from the spec: DW1000Device::isProtocolTimedOut
(DW1000Device.cpp is not among the sources; the header declares it with a
1000 ms default argument).  True when now - last_protocol_activity exceeds
the given threshold. -/
def isProtocolTimedOut (d : DW1000Device) (now timeoutMs : Nat) : Bool :=
  now - d.lastProtocolActivity > timeoutMs

/-- Modelled from the spec: DW1000Device::handleProtocolTimeout
(DW1000Device.cpp is not among the sources).  Per the peer-level timeout
rule the peer is forced back to the IDLE sub-state, which is also what the
repository test suite asserts after calling it. -/
def handleProtocolTimeout (d : DW1000Device) : DW1000Device :=
  { d with protocolState := ProtocolState.PROTOCOL_IDLE }

/-- DW1000Device::isProtocolActive, modelled from the spec: a peer is
mid-protocol when its sub-state is neither IDLE nor FAILED
(DW1000Device.cpp is not among the sources). -/
def isProtocolActive (d : DW1000Device) : Bool :=
  d.protocolState ≠ ProtocolState.PROTOCOL_IDLE ∧
  d.protocolState ≠ ProtocolState.PROTOCOL_FAILED

/-! Intake queue, from the MessageQueueItem ring in DW1000Ranging.cpp.  The
messageType field of an item is Option-valued because detectMessageType can
fall through without returning (see detectMessageType below); none stands
for the undefined value the C++ leaves behind. -/

structure MessageQueueItem where
  data : List Nat
  sourceAddress : Nat × Nat
  messageType : Option Nat
  timestamp : Nat
  processed : Bool
  deriving DecidableEq, Repr

instance : Inhabited MessageQueueItem :=
  ⟨{ data := [], sourceAddress := (0, 0), messageType := none,
     timestamp := 0, processed := false }⟩

structure MessageQueue where
  storage : List MessageQueueItem
  head : Nat
  tail : Nat
  count : Nat
  deriving DecidableEq, Repr

/-- DW1000RangingClass::clearMessageQueue, with the fixed ring storage made
explicit. -/
def clearMessageQueue : MessageQueue :=
  { storage := List.replicate MESSAGE_QUEUE_SIZE default
    head := 0
    tail := 0
    count := 0 }

/-- DW1000RangingClass::enqueueMessage.  Returns the updated queue and the
boolean result; a full queue is left untouched and false is returned. -/
def enqueueMessage (q : MessageQueue) (data : List Nat)
    (sourceAddress : Nat × Nat) (messageType : Option Nat) (now : Nat) :
    MessageQueue × Bool :=
  if q.count ≥ MESSAGE_QUEUE_SIZE then
    (q, false)
  else
    let item : MessageQueueItem :=
      { data := data, sourceAddress := sourceAddress,
        messageType := messageType, timestamp := now, processed := false }
    ({ q with storage := q.storage.set q.tail item
              tail := (q.tail + 1) % MESSAGE_QUEUE_SIZE
              count := q.count + 1 }, true)

/-- DW1000RangingClass::dequeueMessage.  Returns the updated queue and the
item copied out of the head slot, or none when the queue is empty. -/
def dequeueMessage (q : MessageQueue) : MessageQueue × Option MessageQueueItem :=
  if q.count = 0 then
    (q, none)
  else
    ({ q with head := (q.head + 1) % MESSAGE_QUEUE_SIZE
              count := q.count - 1 },
     some (q.storage.getD q.head default))

/-- DW1000RangingClass::detectMessageType.  The C++ if / else-if chain has
no final else: when the frame matches neither the blink pattern nor either
MAC pattern, control falls off the end of a non-void function and the
returned value is undefined.  That missing case is modelled as none. -/
def detectMessageType (datas : List Nat) : Option Nat :=
  if datas.getD 0 0 = FC_1_BLINK then
    some BLINK
  else if datas.getD 0 0 = FC_1 ∧ datas.getD 1 0 = FC_2 then
    some (datas.getD LONG_MAC_LEN 0)
  else if datas.getD 0 0 = FC_1 ∧ datas.getD 1 0 = FC_2_SHORT then
    some (datas.getD SHORT_MAC_LEN 0)
  else
    none

example : detectMessageType [0xC5, 7] = some BLINK := by decide
example : detectMessageType [0x41, 0x88, 0, 0, 0, 0, 0, 0, 0, 2] = some RANGE := by decide
example : detectMessageType [0x00, 0x88] = none := by decide

/-! Observable effects.  Callback slots in the C++ are function pointers
invoked in place; the model records each invocation (and each radio
transmission) as an event.  A protocol-error code is Option-valued because
the unexpected-message branches pass the received message kind through,
which is undefined when detectMessageType fell through. -/

inductive Event where
  | blinkDeviceCb (dev : DW1000Device)
  | newDeviceCb (dev : DW1000Device)
  | newRangeCb
  | rangeCompleteCb (dev : DW1000Device)
  | protocolErrorCb (dev : Option DW1000Device) (code : Option Int)
  | inactiveDeviceCb (dev : DW1000Device)
  | txFrame (kind : Nat) (dest : Nat × Nat)
  deriving DecidableEq, Repr

/-- Which callback slots have a handler attached (a null function pointer in
the C++ means the corresponding invocation is skipped). -/
structure Handlers where
  newRange : Bool
  blinkDevice : Bool
  newDevice : Bool
  inactiveDevice : Bool
  rangeComplete : Bool
  protocolError : Bool
  deriving DecidableEq, Repr

/-- Global static state of DW1000RangingClass made explicit.  The public
data buffer shared between transmit builders and handleSent is the data
field; the float-valued members and debug-only members are outside the
model. -/
structure RangingState where
  networkDevices : List DW1000Device
  currentShortAddress : Nat × Nat
  lastSentToShortAddress : Nat × Nat
  lastDistantDevice : Nat
  type : Nat
  queue : MessageQueue
  data : List Nat
  replyDelayTimeUS : Nat
  timerDelay : Nat
  lastActivity : Nat
  handlers : Handlers
  deriving DecidableEq, Repr

/-- DW1000RangingClass::searchDistantDevice, returning the index of the
first peer whose 2-byte short address matches, in place of a pointer into
the static array. -/
def searchDistantDevice (devices : List DW1000Device)
    (shortAddress : Nat × Nat) : Option Nat :=
  devices.findIdx? (fun d => d.shortAddress = shortAddress)

/-- DW1000Device::isAddressEqual: comparison of the 8-byte EUIs. -/
def isAddressEqual (a b : DW1000Device) : Bool := a.ownAddress = b.ownAddress

/-- DW1000Device::isShortAddressEqual: comparison of the 2-byte short
addresses. -/
def isShortAddressEqual (a b : DW1000Device) : Bool :=
  a.shortAddress = b.shortAddress

/-- DW1000RangingClass::addNetworkDevices(DW1000Device*, boolean), the
overload taking the shortAddress flag.  The duplicate scan runs over the
current table; on a non-duplicate the record is appended with its index set
and its protocol state reset.  The C++ performs no capacity check before
writing slot networkDevicesNumber of a MAX_DEVICES-element array; the list
model mirrors that by growing unconditionally.  The setRange(0) call
touches only the unmodelled float field. -/
def addNetworkDevicesShort (st : RangingState) (device : DW1000Device)
    (shortAddress : Bool) (now : Nat) : RangingState × Bool :=
  if st.networkDevices.any (fun d =>
      (isAddressEqual d device ∧ ¬ shortAddress) ∨
      (isShortAddressEqual d device ∧ shortAddress)) then
    (st, false)
  else
    let d := resetProtocolState
      { device with index := st.networkDevices.length } now
    ({ st with networkDevices := st.networkDevices ++ [d] }, true)

/-- DW1000RangingClass::addNetworkDevices(DW1000Device*), the single
argument overload.  A duplicate (same EUI and same short address) is
rejected; otherwise an ANCHOR first resets the table size to zero and the
record is appended with its index set and its protocol state reset.  As in
the other overload there is no capacity check. -/
def addNetworkDevices (st : RangingState) (device : DW1000Device)
    (now : Nat) : RangingState × Bool :=
  if st.networkDevices.any (fun d =>
      isAddressEqual d device ∧ isShortAddressEqual d device) then
    (st, false)
  else
    let base := if st.type = ANCHOR then [] else st.networkDevices
    let d := resetProtocolState { device with index := base.length } now
    ({ st with networkDevices := base ++ [d] }, true)

/-! Byte-buffer helpers for the fixed 120-byte data buffer.  A write past
the end of the list is a no-op, mirroring the fixed-size C array bound. -/

/-- Writes a run of bytes into the buffer starting at the given offset. -/
def writeBytes (buf : List Nat) (pos : Nat) (bytes : List Nat) : List Nat :=
  (List.range bytes.length).foldl
    (fun b i => b.set (pos + i) (bytes.getD i 0)) buf

/-- Serialises a 40-bit device timestamp to its 5 little-endian bytes
(DW1000Time::getTimestamp(byte*)). -/
def toLE5 (t : Int) : List Nat :=
  [t.toNat % 256, t.toNat / 256 % 256, t.toNat / 65536 % 256,
   t.toNat / 16777216 % 256, t.toNat / 4294967296 % 256]

/-- Reads a 40-bit device timestamp from 5 little-endian bytes at the given
offset (DW1000Time::setTimestamp(byte*)). -/
def readLE5 (buf : List Nat) (pos : Nat) : Int :=
  Int.ofNat (buf.getD pos 0 + buf.getD (pos + 1) 0 * 256 +
    buf.getD (pos + 2) 0 * 65536 + buf.getD (pos + 3) 0 * 16777216 +
    buf.getD (pos + 4) 0 * 4294967296)

/-- Reads a 16-bit little-endian value at the given offset (the memcpy into
a uint16_t in the POLL parser). -/
def readLE16 (buf : List Nat) (pos : Nat) : Nat :=
  buf.getD pos 0 + buf.getD (pos + 1) 0 * 256

/-- Modelled from the spec: DW1000Mac::generateBlinkFrame (DW1000Mac.cpp is
not among the sources).  First byte 0xC5, a sequence byte, then the 8-byte
source EUI and the 2-byte source short address. -/
def generateBlinkFrame (address : List Nat) (shortAddress : Nat × Nat) :
    List Nat :=
  FC_1_BLINK :: 0 :: address.take 8 ++ [shortAddress.1, shortAddress.2]

/-- Modelled from the spec: the blink-frame decoder DW1000Mac::decodeBlinkFrame
(DW1000Mac.cpp is not among the sources), the inverse of the encoder above:
returns the source EUI and the source short address. -/
def decodeBlinkFrame (datas : List Nat) : List Nat × (Nat × Nat) :=
  ((datas.drop 2).take 8, (datas.getD 10 0, datas.getD 11 0))

/-- Modelled from the spec: DW1000Mac::generateShortMACFrame (DW1000Mac.cpp
is not among the sources).  Header layout: 2 FC bytes 0x41 0x88, sequence,
2-byte PAN 0xDECA, destination short, source short, SHORT_MAC_LEN bytes in
all. -/
def generateShortMACFrame (src dest : Nat × Nat) : List Nat :=
  [FC_1, FC_2_SHORT, 0, 0xCA, 0xDE, dest.1, dest.2, src.1, src.2]

/-- Modelled from the spec: the source-address extraction
DW1000Mac::decodeShortMACFrame (DW1000Mac.cpp is not among the sources),
reading the source short address of the header above. -/
def decodeShortMACFrameSrc (datas : List Nat) : Nat × Nat :=
  (datas.getD 7 0, datas.getD 8 0)

/-- Modelled from the spec: DW1000Mac::generateLongMACFrame (DW1000Mac.cpp
is not among the sources).  Header layout: 2 FC bytes 0x41 0x8C, sequence,
2-byte PAN 0xDECA, 8-byte destination EUI, source short, LONG_MAC_LEN bytes
in all. -/
def generateLongMACFrame (src : Nat × Nat) (destEUI : List Nat) : List Nat :=
  [FC_1, FC_2, 0, 0xCA, 0xDE] ++ destEUI.take 8 ++ [src.1, src.2]

/-- Modelled from the spec: the source-address extraction
DW1000Mac::decodeLongMACFrame (DW1000Mac.cpp is not among the sources),
reading the source short address of the header above. -/
def decodeLongMACFrameSrc (datas : List Nat) : Nat × Nat :=
  (datas.getD 13 0, datas.getD 14 0)

/-- Modelled from the spec: the constructor DW1000Device(byte*, byte*) used
on BLINK receipt (DW1000Device.cpp is not among the sources): a fresh peer
record carrying the decoded EUI and short address. -/
def mkBlinkDevice (address : List Nat) (shortAddress : Nat × Nat) :
    DW1000Device :=
  { (default : DW1000Device) with ownAddress := address
                                  shortAddress := shortAddress }

/-- Modelled from the spec: the constructor DW1000Device(byte*, boolean)
used on RANGING_INIT receipt (DW1000Device.cpp is not among the sources): a
fresh peer record carrying only the decoded 2-byte short address. -/
def mkShortDevice (shortAddress : Nat × Nat) : DW1000Device :=
  { (default : DW1000Device) with shortAddress := shortAddress }

/-! Transmit builders.  Each writes the outgoing frame into the shared data
buffer, records the destination in lastSentToShortAddress and emits a
txFrame event.  Radio-side scheduling (DW1000.setDelay) is a collaborator;
the scheduled transmit timestamp it returns enters as a parameter. -/

/-- DW1000RangingClass::transmitRangingInit. -/
def transmitRangingInit (st : RangingState) (dev : DW1000Device) :
    RangingState × List Event :=
  let buf := writeBytes st.data 0
    (generateLongMACFrame st.currentShortAddress dev.ownAddress)
  let buf := buf.set LONG_MAC_LEN RANGING_INIT
  ({ st with data := buf, lastSentToShortAddress := dev.shortAddress },
   [Event.txFrame RANGING_INIT dev.shortAddress])

/-- DW1000RangingClass::transmitPollAck.  The reply-delay scheduling only
affects radio timing. -/
def transmitPollAck (st : RangingState) (dev : DW1000Device) :
    RangingState × List Event :=
  let buf := writeBytes st.data 0
    (generateShortMACFrame st.currentShortAddress dev.shortAddress)
  let buf := buf.set SHORT_MAC_LEN POLL_ACK
  ({ st with data := buf, lastSentToShortAddress := dev.shortAddress },
   [Event.txFrame POLL_ACK dev.shortAddress])

/-- DW1000RangingClass::transmitRangeReport.  The eight payload bytes carry
the float range and RX power and are outside the model. -/
def transmitRangeReport (st : RangingState) (dev : DW1000Device) :
    RangingState × List Event :=
  let buf := writeBytes st.data 0
    (generateShortMACFrame st.currentShortAddress dev.shortAddress)
  let buf := buf.set SHORT_MAC_LEN RANGE_REPORT
  ({ st with data := buf, lastSentToShortAddress := dev.shortAddress },
   [Event.txFrame RANGE_REPORT dev.shortAddress])

/-- DW1000RangingClass::transmitRangeFailed. -/
def transmitRangeFailed (st : RangingState) (dev : DW1000Device) :
    RangingState × List Event :=
  let buf := writeBytes st.data 0
    (generateShortMACFrame st.currentShortAddress dev.shortAddress)
  let buf := buf.set SHORT_MAC_LEN RANGE_FAILED
  ({ st with data := buf, lastSentToShortAddress := dev.shortAddress },
   [Event.txFrame RANGE_FAILED dev.shortAddress])

/-- DW1000RangingClass::transmitRange.  With no peer argument (the nullptr
call) the frame is a broadcast: the timer delay is stretched, the scheduled
transmit timestamp returned by the radio becomes every peer's
timeRangeSent, and each peer contributes a 17-byte entry of short address
plus three 5-byte timestamps.  With a peer index the frame is unicast to
that peer. -/
def transmitRange (st : RangingState) (dev? : Option Nat)
    (scheduledTxTime : Int) : RangingState × List Event :=
  match dev? with
  | none =>
    let timerDelay := DEFAULT_TIMER_DELAY +
      st.networkDevices.length * 3 * DEFAULT_REPLY_DELAY_TIME / 1000
    let buf := writeBytes st.data 0
      (generateShortMACFrame st.currentShortAddress (0xFF, 0xFF))
    let buf := (buf.set SHORT_MAC_LEN RANGE).set (SHORT_MAC_LEN + 1)
      st.networkDevices.length
    let devs := st.networkDevices.map
      (fun d => { d with timeRangeSent := scheduledTxTime })
    let buf := (List.range devs.length).foldl (fun b i =>
      let d := devs.getD i default
      let b := writeBytes b (SHORT_MAC_LEN + 2 + 17 * i)
        [d.shortAddress.1, d.shortAddress.2]
      let b := writeBytes b (SHORT_MAC_LEN + 4 + 17 * i) (toLE5 d.timePollSent)
      let b := writeBytes b (SHORT_MAC_LEN + 9 + 17 * i)
        (toLE5 d.timePollAckReceived)
      writeBytes b (SHORT_MAC_LEN + 14 + 17 * i) (toLE5 d.timeRangeSent)) buf
    ({ st with timerDelay := timerDelay
               data := buf
               networkDevices := devs
               lastSentToShortAddress := (0xFF, 0xFF) },
     [Event.txFrame RANGE (0xFF, 0xFF)])
  | some idx =>
    let d := st.networkDevices.getD idx default
    let d := { d with timeRangeSent := scheduledTxTime }
    let buf := writeBytes st.data 0
      (generateShortMACFrame st.currentShortAddress d.shortAddress)
    let buf := buf.set SHORT_MAC_LEN RANGE
    let buf := writeBytes buf (1 + SHORT_MAC_LEN) (toLE5 d.timePollSent)
    let buf := writeBytes buf (6 + SHORT_MAC_LEN) (toLE5 d.timePollAckReceived)
    let buf := writeBytes buf (11 + SHORT_MAC_LEN) (toLE5 d.timeRangeSent)
    ({ st with data := buf
               networkDevices := st.networkDevices.set idx d
               lastSentToShortAddress := d.shortAddress },
     [Event.txFrame RANGE d.shortAddress])

/-- DW1000RangingClass::handleSent.  The TX-completion interrupt detects
the kind of the frame still held in the shared data buffer; kinds other
than POLL_ACK, POLL and RANGE return immediately.  An Anchor records the
POLL_ACK transmit timestamp for the peer last sent to; a Tag records the
POLL or RANGE transmit timestamp either for every peer (broadcast
destination 0xFFFF) or for the single peer last sent to. -/
def handleSent (st : RangingState) (txTimestamp : Int) : RangingState :=
  match detectMessageType st.data with
  | none => st
  | some messageType =>
    if messageType ≠ POLL_ACK ∧ messageType ≠ POLL ∧ messageType ≠ RANGE then
      st
    else if st.type = ANCHOR then
      if messageType = POLL_ACK then
        match searchDistantDevice st.networkDevices st.lastSentToShortAddress with
        | some idx =>
          let d := st.networkDevices.getD idx default
          let d := { d with timePollAckSent := txTimestamp, sentAck := true }
          { st with networkDevices := st.networkDevices.set idx d }
        | none => st
      else st
    else if st.type = TAG then
      if messageType = POLL then
        if st.lastSentToShortAddress = (0xFF, 0xFF) then
          let devs := st.networkDevices.map
            (fun d => { d with timePollSent := txTimestamp, sentAck := true })
          { st with networkDevices := devs }
        else
          match searchDistantDevice st.networkDevices st.lastSentToShortAddress with
          | some idx =>
            let d := st.networkDevices.getD idx default
            let d := { d with timePollSent := txTimestamp, sentAck := true }
            { st with networkDevices := st.networkDevices.set idx d }
          | none => st
      else if messageType = RANGE then
        if st.lastSentToShortAddress = (0xFF, 0xFF) then
          let devs := st.networkDevices.map
            (fun d => { d with timeRangeSent := txTimestamp, sentAck := true })
          { st with networkDevices := devs }
        else
          match searchDistantDevice st.networkDevices st.lastSentToShortAddress with
          | some idx =>
            let d := st.networkDevices.getD idx default
            let d := { d with timeRangeSent := txTimestamp, sentAck := true }
            { st with networkDevices := st.networkDevices.set idx d }
          | none => st
      else st
    else st

/-- DW1000RangingClass::handleReceived.  The received frame is copied into
the shared data buffer, its kind detected, its source short address
extracted according to the kind, and the frame is enqueued.  The boolean
result of enqueueMessage is discarded: a full queue silently drops the
frame, and no callback of any sort is invoked here. -/
def handleReceived (st : RangingState) (rxData : List Nat) (now : Nat) :
    RangingState × List Event :=
  let messageType := detectMessageType rxData
  let sourceAddress :=
    if messageType = some BLINK then (decodeBlinkFrame rxData).2
    else if messageType = some RANGING_INIT then decodeLongMACFrameSrc rxData
    else decodeShortMACFrameSrc rxData
  let q := (enqueueMessage st.queue rxData sourceAddress messageType now).1
  ({ st with data := rxData, queue := q }, [])

/-- DW1000RangingClass::computeRangeAsymmetric: the asymmetric two-way
ranging formula over the six per-peer timestamps, each difference taken
with the wrap() correction.  The division of the two DW1000Time values is
C++ int64 division, which truncates toward zero. -/
def computeRangeAsymmetric (d : DW1000Device) : Int :=
  let round1 := subWrap d.timePollAckReceived d.timePollSent
  let reply1 := subWrap d.timePollAckSent d.timePollReceived
  let round2 := subWrap d.timeRangeReceived d.timePollAckSent
  let reply2 := subWrap d.timeRangeSent d.timePollAckReceived
  Int.tdiv (round1 * round2 - reply1 * reply2)
    (round1 + round2 + reply1 + reply2)

/-- DW1000RangingClass::handleDeviceProtocolState.  The per-peer state
machine, dispatched on the engine role.  The peer is given by its table
index; rxTimestamp stands for DW1000.getReceiveTimestamp readbacks and
scheduledTxTime for the scheduled transmit timestamp the radio returns
inside transmitRange.  The message payload is parsed from the shared data
buffer, exactly as the C++ does (the queued copy of the frame is not
consulted here). -/
def handleDeviceProtocolState (st : RangingState) (idx : Nat)
    (messageType : Option Nat) (rxTimestamp scheduledTxTime : Int)
    (now : Nat) : RangingState × List Event :=
  if st.type = ANCHOR then
    let d0 := st.networkDevices.getD idx default
    let mismatch := messageType ≠ some d0.expectedMsgId
    let d1 := if mismatch then { d0 with protocolFailed := true } else d0
    let evs0 := if mismatch ∧ st.handlers.protocolError then
        [Event.protocolErrorCb (some d1) (messageType.map Int.ofNat)]
      else []
    if messageType = some POLL then
      let numberDevices := st.data.getD (SHORT_MAC_LEN + 1) 0
      let hit := (List.range numberDevices).findSome? (fun i =>
        if (st.data.getD (SHORT_MAC_LEN + 2 + i * 4) 0,
            st.data.getD (SHORT_MAC_LEN + 2 + i * 4 + 1) 0) =
           st.currentShortAddress then some i else none)
      match hit with
      | some i =>
        let replyTime := readLE16 st.data (SHORT_MAC_LEN + 2 + i * 4 + 2)
        let d2 := { d1 with protocolFailed := false
                            protocolState := ProtocolState.PROTOCOL_POLL_SENT
                            timePollReceived := rxTimestamp
                            activity := now
                            lastProtocolActivity := now
                            expectedMsgId := MSG_RANGE }
        let st1 := { st with replyDelayTimeUS := replyTime,
                             networkDevices := st.networkDevices.set idx d2 }
        let (st2, evsTx) := transmitPollAck st1 d2
        ({ st2 with lastActivity := now }, evs0 ++ evsTx)
      | none =>
        ({ st with networkDevices := st.networkDevices.set idx d1 }, evs0)
    else if messageType = some RANGE then
      let numberDevices := st.data.getD (SHORT_MAC_LEN + 1) 0
      let hit := (List.range numberDevices).findSome? (fun i =>
        if (st.data.getD (SHORT_MAC_LEN + 2 + i * 17) 0,
            st.data.getD (SHORT_MAC_LEN + 2 + i * 17 + 1) 0) =
           st.currentShortAddress then some i else none)
      match hit with
      | some i =>
        let d2 := { d1 with timeRangeReceived := rxTimestamp
                            activity := now
                            lastProtocolActivity := now
                            expectedMsgId := MSG_POLL
                            protocolState := ProtocolState.PROTOCOL_RANGE_SENT }
        if ¬ d2.protocolFailed then
          let d3 := { d2 with
            timePollSent := readLE5 st.data (SHORT_MAC_LEN + 4 + 17 * i)
            timePollAckReceived := readLE5 st.data (SHORT_MAC_LEN + 9 + 17 * i)
            timeRangeSent := readLE5 st.data (SHORT_MAC_LEN + 14 + 17 * i) }
          -- computeRangeAsymmetric d3 is the time of flight used here; its
          -- conversion to meters, the EMA filter and the power/quality
          -- readbacks are float computations outside the model
          let st1 := { st with lastActivity := now,
                               networkDevices := st.networkDevices.set idx d3 }
          let (st2, evsTx) := transmitRangeReport st1 d3
          let d4 := { d3 with
            protocolState := ProtocolState.PROTOCOL_RANGE_REPORT_SENT }
          let st3 := { st2 with networkDevices := st2.networkDevices.set idx d4,
                                lastDistantDevice := d4.index }
          let evsCb := (if st.handlers.newRange then [Event.newRangeCb] else [])
            ++ (if st.handlers.rangeComplete then [Event.rangeCompleteCb d4]
                else [])
          (st3, evs0 ++ evsTx ++ evsCb)
        else
          let st1 := { st with lastActivity := now,
                               networkDevices := st.networkDevices.set idx d2 }
          let (st2, evsTx) := transmitRangeFailed st1 d2
          let d3 := { d2 with protocolState := ProtocolState.PROTOCOL_FAILED }
          let st3 := { st2 with networkDevices := st2.networkDevices.set idx d3 }
          (st3, evs0 ++ evsTx)
      | none =>
        let st1 := { st with lastActivity := now,
                             networkDevices := st.networkDevices.set idx d1 }
        (st1, evs0)
    else
      ({ st with networkDevices := st.networkDevices.set idx d1 }, evs0)
  else if st.type = TAG then
    let d0 := st.networkDevices.getD idx default
    if messageType ≠ some d0.expectedMsgId then
      let d1 := { d0 with protocolFailed := true, expectedMsgId := MSG_POLL_ACK }
      let evs := if st.handlers.protocolError then
          [Event.protocolErrorCb (some d1) (messageType.map Int.ofNat)]
        else []
      ({ st with networkDevices := st.networkDevices.set idx d1 }, evs)
    else if messageType = some POLL_ACK then
      let d1 := { d0 with timePollAckReceived := rxTimestamp
                          activity := now
                          lastProtocolActivity := now
                          protocolState := ProtocolState.PROTOCOL_POLL_ACK_SENT }
      if d1.index = st.networkDevices.length - 1 then
        let d2 := { d1 with expectedMsgId := MSG_RANGE_REPORT }
        let st1 := { st with networkDevices := st.networkDevices.set idx d2 }
        transmitRange st1 none scheduledTxTime
      else
        ({ st with networkDevices := st.networkDevices.set idx d1 }, [])
    else if messageType = some RANGE_REPORT then
      -- the float range and RX power read from the payload, and the EMA
      -- filter applied to them, are outside the model
      let d1 := { d0 with activity := now
                          lastProtocolActivity := now
                          protocolState := ProtocolState.PROTOCOL_IDLE }
      let st1 := { st with networkDevices := st.networkDevices.set idx d1,
                           lastDistantDevice := d1.index }
      let evs := (if st.handlers.newRange then [Event.newRangeCb] else [])
        ++ (if st.handlers.rangeComplete then [Event.rangeCompleteCb d1] else [])
      (st1, evs)
    else if messageType = some RANGE_FAILED then
      let d1 := { d0 with protocolFailed := true
                          protocolState := ProtocolState.PROTOCOL_FAILED
                          expectedMsgId := MSG_POLL_ACK }
      let evs := if st.handlers.protocolError then
          [Event.protocolErrorCb (some d1) (messageType.map Int.ofNat)]
        else []
      ({ st with networkDevices := st.networkDevices.set idx d1 }, evs)
    else
      (st, [])
  else
    (st, [])

/-- DW1000RangingClass::processDeviceMessage.  BLINK at an Anchor and
RANGING_INIT at a Tag are the discovery paths that create a peer; every
other kind requires the existing peer passed in (none models the nullptr
pointer, for which the function only logs and returns). -/
def processDeviceMessage (st : RangingState) (device : Option Nat)
    (data : List Nat) (messageType : Option Nat)
    (rxTimestamp scheduledTxTime : Int) (now : Nat) :
    RangingState × List Event :=
  if messageType = some BLINK ∧ st.type = ANCHOR then
    let decoded := decodeBlinkFrame data
    let myTag := mkBlinkDevice decoded.1 decoded.2
    let added := addNetworkDevices st myTag now
    if added.2 then
      let evs := if st.handlers.blinkDevice then [Event.blinkDeviceCb myTag]
        else []
      let (st2, evsTx) := transmitRangingInit added.1 myTag
      ({ st2 with lastActivity := now }, evs ++ evsTx)
    else
      (added.1, [])
  else if messageType = some RANGING_INIT ∧ st.type = TAG then
    let myAnchor := mkShortDevice (decodeLongMACFrameSrc data)
    let added := addNetworkDevicesShort st myAnchor true now
    let evs := if added.2 ∧ st.handlers.newDevice then
        [Event.newDeviceCb myAnchor]
      else []
    ({ added.1 with lastActivity := now }, evs)
  else
    match device with
    | none => (st, [])
    | some idx =>
      handleDeviceProtocolState st idx messageType rxTimestamp scheduledTxTime
        now

/-- DW1000RangingClass::processDeviceMessages.  Takes at most one item off
the intake queue, looks the source short address up in the peer table, and
only when a peer is found hands the item to processDeviceMessage; an item
from an unknown source is consumed without any processing. -/
def processDeviceMessages (st : RangingState)
    (rxTimestamp scheduledTxTime : Int) (now : Nat) :
    RangingState × List Event :=
  let dq := dequeueMessage st.queue
  let st1 := { st with queue := dq.1 }
  match dq.2 with
  | some item =>
    match searchDistantDevice st1.networkDevices item.sourceAddress with
    | some idx =>
      processDeviceMessage st1 (some idx) item.data item.messageType
        rxTimestamp scheduledTxTime now
    | none => (st1, [])
  | none => (st1, [])

/-- One step of the per-peer timeout scan in
DW1000RangingClass::handleDeviceTimeout: a peer timed out against the
2000 ms threshold is put through handleProtocolTimeout and, when a handler
is attached, a protocol-error invocation with code -1 is recorded for it. -/
def handleDeviceTimeoutStep (handlers : Handlers) (now : Nat)
    (d : DW1000Device) : DW1000Device × List Event :=
  if isProtocolTimedOut d now 2000 then
    let d1 := handleProtocolTimeout d
    (d1, if handlers.protocolError then
        [Event.protocolErrorCb (some d1) (some (-1))]
      else [])
  else
    (d, [])

/-- DW1000RangingClass::handleDeviceTimeout: the scan over the whole peer
table, run once per service call from loop(). -/
def handleDeviceTimeout (st : RangingState) (now : Nat) :
    RangingState × List Event :=
  let devs := st.networkDevices.map
    (fun d => (handleDeviceTimeoutStep st.handlers now d).1)
  ({ st with networkDevices := devs },
   st.networkDevices.flatMap (fun d => (handleDeviceTimeoutStep st.handlers now d).2))

/-- The range computation exactly as the specification words it: each leg is
the corresponding timestamp difference taken modulo 2 ^ 40 (non-negative, by
the Euclidean remainder), combined by the asymmetric TWR formula.  Stated
separately from the translation of computeRangeAsymmetric so the two can be
compared. -/
def tofSpec (tPS tPR tPAS tPAR tRS tRR : Int) : Int :=
  let round1 := (tPAR - tPS) % TIME_OVERFLOW
  let reply1 := (tPAS - tPR) % TIME_OVERFLOW
  let round2 := (tRR - tPAS) % TIME_OVERFLOW
  let reply2 := (tRS - tPAR) % TIME_OVERFLOW
  Int.tdiv (round1 * round2 - reply1 * reply2)
    (round1 + round2 + reply1 + reply2)

/-- All six ranging timestamps of a peer lie in the 40-bit counter range. -/
def tsBounded (d : DW1000Device) : Prop :=
  0 ≤ d.timePollSent ∧ d.timePollSent < TIME_OVERFLOW ∧
  0 ≤ d.timePollReceived ∧ d.timePollReceived < TIME_OVERFLOW ∧
  0 ≤ d.timePollAckSent ∧ d.timePollAckSent < TIME_OVERFLOW ∧
  0 ≤ d.timePollAckReceived ∧ d.timePollAckReceived < TIME_OVERFLOW ∧
  0 ≤ d.timeRangeSent ∧ d.timeRangeSent < TIME_OVERFLOW ∧
  0 ≤ d.timeRangeReceived ∧ d.timeRangeReceived < TIME_OVERFLOW

instance (d : DW1000Device) : Decidable (tsBounded d) := by
  unfold tsBounded; infer_instance

/-! Concrete fixtures used by the witnesses and counterexamples below. -/

/-- A handler set with every callback slot attached. -/
def handlersAll : Handlers :=
  { newRange := true, blinkDevice := true, newDevice := true,
    inactiveDevice := true, rangeComplete := true, protocolError := true }

/-- A fresh engine state for the given role and peer table. -/
def mkState (role : Nat) (devs : List DW1000Device) : RangingState :=
  { networkDevices := devs
    currentShortAddress := (0x90, 0x01)
    lastSentToShortAddress := (0, 0)
    lastDistantDevice := 0
    type := role
    queue := clearMessageQueue
    data := List.replicate LEN_DATA 0
    replyDelayTimeUS := DEFAULT_REPLY_DELAY_TIME
    timerDelay := DEFAULT_TIMER_DELAY
    lastActivity := 0
    handlers := handlersAll }

/-- A peer with the given short address, table index and expected message. -/
def mkPeer (sa : Nat × Nat) (idx exp : Nat) : DW1000Device :=
  { (default : DW1000Device) with shortAddress := sa, index := idx,
                                  expectedMsgId := exp }

/-- A Tag peer table already holding MAX_DEVICES distinct peers. -/
def fullTagState : RangingState :=
  mkState TAG [mkPeer (1, 1) 0 MSG_POLL_ACK, mkPeer (2, 2) 1 MSG_POLL_ACK,
               mkPeer (3, 3) 2 MSG_POLL_ACK, mkPeer (4, 4) 3 MSG_POLL_ACK]

/-- A fifth peer, distinct from everything in fullTagState. -/
def fifthPeer : DW1000Device := mkPeer (5, 5) 0 MSG_POLL_ACK

/-- C2: the claim expects an add attempt on a full table to return failure
and leave the table unchanged.  The duplicate scan aside,
addNetworkDevicesShort has no capacity check at all: on a table already
holding MAX_DEVICES = 4 peers it reports success and the table grows to
five records (in the C++ this is a write one past the end of the
MAX_DEVICES-element static array). -/
theorem claim_C2_add_overflows_capacity :
    fullTagState.networkDevices.length = MAX_DEVICES ∧
    (addNetworkDevicesShort fullTagState fifthPeer true 7).2 = true ∧
    (addNetworkDevicesShort fullTagState fifthPeer true 7).1.networkDevices.length
      = MAX_DEVICES + 1 := by
  decide

/-- C7: an enqueue against a queue whose count has reached
MESSAGE_QUEUE_SIZE returns false and leaves the queue — storage, head, tail
and count — exactly as it was. -/
theorem claim_C7_enqueue_full_unchanged (q : MessageQueue) (data : List Nat)
    (src : Nat × Nat) (mt : Option Nat) (now : Nat)
    (h : q.count ≥ MESSAGE_QUEUE_SIZE) :
    enqueueMessage q data src mt now = (q, false) := by
  simp [enqueueMessage, h]

/-- Witness for C7 at a concrete full queue. -/
theorem claim_C7_witness :
    { clearMessageQueue with count := 10 }.count ≥ MESSAGE_QUEUE_SIZE ∧
    enqueueMessage { clearMessageQueue with count := 10 } [0xC5] (1, 1)
      (some BLINK) 3 = ({ clearMessageQueue with count := 10 }, false) :=
  ⟨by decide,
   claim_C7_enqueue_full_unchanged { clearMessageQueue with count := 10 }
     [0xC5] (1, 1) (some BLINK) 3 (by decide)⟩

/-- C9: the claim expects detectMessageType to be total.  The translation
returns none exactly where the C++ if / else-if chain falls off the end of
the non-void function, which happens on a first byte that is neither 0xC5
nor 0x41 and on a second byte that matches neither MAC pattern: there the
C++ return value is undefined, not a defined message kind. -/
theorem claim_C9_detect_falls_through :
    detectMessageType (0x00 :: List.replicate 119 0) = none ∧
    detectMessageType (0x41 :: 0x00 :: List.replicate 118 0) = none ∧
    detectMessageType (0xC5 :: List.replicate 119 0) = some BLINK := by
  decide

/-- Wrap-safe subtraction agrees with the Euclidean remainder modulo 2 ^ 40
whenever both operands are in-range 40-bit counter values. -/
theorem subWrap_eq_emod (a b : Int) (ha0 : 0 ≤ a) (ha : a < TIME_OVERFLOW)
    (hb0 : 0 ≤ b) (hb : b < TIME_OVERFLOW) :
    subWrap a b = (a - b) % TIME_OVERFLOW := by
  simp only [subWrap, timeWrap, timeSub, TIME_OVERFLOW] at *
  split <;> omega

/-- C4: for in-range timestamps the engine computation
computeRangeAsymmetric equals the specification formula: each leg a
subtraction taken modulo 2 ^ 40, combined as
(round1 * round2 - reply1 * reply2) / (round1 + round2 + reply1 + reply2). -/
theorem claim_C4_compute_range_asymmetric (d : DW1000Device)
    (h : tsBounded d) :
    computeRangeAsymmetric d = tofSpec d.timePollSent d.timePollReceived
      d.timePollAckSent d.timePollAckReceived d.timeRangeSent
      d.timeRangeReceived := by
  obtain ⟨h1, h2, h3, h4, h5, h6, h7, h8, h9, h10, h11, h12⟩ := h
  simp only [computeRangeAsymmetric, tofSpec]
  rw [subWrap_eq_emod _ _ h7 h8 h1 h2, subWrap_eq_emod _ _ h5 h6 h3 h4,
      subWrap_eq_emod _ _ h11 h12 h5 h6, subWrap_eq_emod _ _ h9 h10 h7 h8]

/-- A peer whose poll-sent timestamp sits just below the 40-bit wrap point,
so that round1 wraps. -/
def wrapPeer : DW1000Device :=
  { (default : DW1000Device) with
      timePollSent := 1099511627676
      timePollReceived := 100
      timePollAckSent := 300
      timePollAckReceived := 400
      timeRangeSent := 600
      timeRangeReceived := 800 }

/-- Witness for C4 at a concrete peer whose first leg wraps around 2 ^ 40. -/
theorem claim_C4_witness :
    tsBounded wrapPeer ∧
    computeRangeAsymmetric wrapPeer =
      tofSpec 1099511627676 100 300 400 600 800 :=
  ⟨by decide, claim_C4_compute_range_asymmetric wrapPeer (by decide)⟩

/-- C5: on a Tag whose last transmission went to the broadcast short
address 0xFFFF, TX completion of a POLL (resp. RANGE) frame writes the
captured transmit timestamp into the poll-sent (resp. range-sent)
timestamp of every peer in the table and sets every peer's sent-ack flag. -/
theorem claim_C5_broadcast_fanout (st : RangingState) (ts : Int)
    (hT : st.type = TAG) (hB : st.lastSentToShortAddress = (0xFF, 0xFF)) :
    (detectMessageType st.data = some POLL →
      (handleSent st ts).networkDevices = st.networkDevices.map
        (fun d => { d with timePollSent := ts, sentAck := true })) ∧
    (detectMessageType st.data = some RANGE →
      (handleSent st ts).networkDevices = st.networkDevices.map
        (fun d => { d with timeRangeSent := ts, sentAck := true })) := by
  constructor <;> intro h <;>
    simp [handleSent, h, hT, hB, TAG, ANCHOR, POLL, POLL_ACK, RANGE]

/-- A two-peer Tag state whose data buffer holds a broadcast POLL frame and
whose last destination was the broadcast address. -/
def c5State : RangingState :=
  { mkState TAG [mkPeer (1, 1) 0 MSG_POLL_ACK, mkPeer (2, 2) 1 MSG_POLL_ACK]
    with lastSentToShortAddress := (0xFF, 0xFF)
         data := writeBytes (List.replicate LEN_DATA 0) 0
           (generateShortMACFrame (0x90, 0x01) (0xFF, 0xFF)) }

/-- Witness for C5: the broadcast POLL fan-out on a concrete two-peer
state. -/
theorem claim_C5_witness :
    detectMessageType c5State.data = some POLL ∧
    (handleSent c5State 777).networkDevices = c5State.networkDevices.map
      (fun d => { d with timePollSent := 777, sentAck := true }) :=
  ⟨by decide, (claim_C5_broadcast_fanout c5State 777 rfl rfl).1 (by decide)⟩

/-- C10: TX completion of a frame whose detected kind is none of POLL,
POLL_ACK and RANGE (so BLINK, RANGING_INIT, RANGE_REPORT or RANGE_FAILED)
leaves the whole engine state — in particular every peer record — exactly
as it was. -/
theorem claim_C10_tx_other_kinds_no_peer_update (st : RangingState)
    (ts : Int) (k : Nat) (hk : detectMessageType st.data = some k)
    (h1 : k ≠ POLL) (h2 : k ≠ POLL_ACK) (h3 : k ≠ RANGE) :
    handleSent st ts = st := by
  simp [handleSent, hk, h1, h2, h3]

/-- An Anchor state whose data buffer holds a RANGING_INIT long-MAC
frame. -/
def c10State : RangingState :=
  { mkState ANCHOR [mkPeer (1, 1) 0 MSG_POLL] with
      data := (writeBytes (List.replicate LEN_DATA 0) 0
        (generateLongMACFrame (0x90, 0x01) [1, 2, 3, 4, 5, 6, 7, 8])).set
          LONG_MAC_LEN RANGING_INIT }

/-- Witness for C10 at a concrete RANGING_INIT transmission. -/
theorem claim_C10_witness :
    detectMessageType c10State.data = some RANGING_INIT ∧
    handleSent c10State 9 = c10State :=
  ⟨by decide, claim_C10_tx_other_kinds_no_peer_update c10State 9 RANGING_INIT
    (by decide) (by decide) (by decide) (by decide)⟩

/-- C8 amended: when the intake queue is full, handleReceived drops the
frame silently — the enqueue failure is ignored, the queue is unchanged and
no callback of any kind (in particular no protocol-error with code -2) is
invoked. -/
theorem claim_C8_queue_full_silent_drop (st : RangingState)
    (rxData : List Nat) (now : Nat)
    (h : st.queue.count ≥ MESSAGE_QUEUE_SIZE) :
    (handleReceived st rxData now).1.queue = st.queue ∧
    (handleReceived st rxData now).2 = [] := by
  simp [handleReceived, enqueueMessage, h]

/-- An Anchor state whose intake queue is already at capacity. -/
def c8State : RangingState :=
  { mkState ANCHOR [] with queue := { clearMessageQueue with count := 10 } }

/-- Counterexample for C8 as stated: with the queue full, receiving a frame
produces no event at all, so in particular the protocol-error invocation
with a null peer and code -2 that the claim requires never happens. -/
theorem claim_C8_counterexample_no_error_event :
    (handleReceived c8State (0xC5 :: List.replicate 119 0) 3).2 = [] ∧
    Event.protocolErrorCb none (some (-2)) ∉
      (handleReceived c8State (0xC5 :: List.replicate 119 0) 3).2 := by
  decide

/-- Witness for the amended C8 at a concrete full-queue state. -/
theorem claim_C8_witness :
    c8State.queue.count ≥ MESSAGE_QUEUE_SIZE ∧
    ((handleReceived c8State [0xC5] 3).1.queue = c8State.queue ∧
     (handleReceived c8State [0xC5] 3).2 = []) :=
  ⟨by decide, claim_C8_queue_full_silent_drop c8State [0xC5] 3 (by decide)⟩

/-- An Anchor state with one peer stuck in POLL_SENT since time 0. -/
def c3State : RangingState :=
  mkState ANCHOR
    [{ mkPeer (1, 1) 0 MSG_RANGE with
        protocolState := ProtocolState.PROTOCOL_POLL_SENT
        lastProtocolActivity := 0 }]

/-- Counterexample for C3 as stated: a peer in POLL_SENT whose age is
1100 ms — beyond the claimed 1000 ms threshold — is not touched by the
timeout scan: no protocol-error fires and the peer stays in POLL_SENT,
because handleDeviceTimeout tests against 2000 ms, not 1000 ms. -/
theorem claim_C3_counterexample_1100ms :
    (handleDeviceTimeout c3State 1100).2 = [] ∧
    ((handleDeviceTimeout c3State 1100).1.networkDevices.getD 0
      default).protocolState = ProtocolState.PROTOCOL_POLL_SENT := by
  decide

/-- C3 amended: the timeout threshold the service loop applies is 2000 ms.
Every peer whose age now - last_protocol_activity exceeds 2000 ms is, within
the one handleDeviceTimeout scan of a service call, forced back to IDLE and
reported through a protocol-error invocation with code -1. -/
theorem claim_C3_timeout_2000ms (st : RangingState) (now i : Nat)
    (hi : i < st.networkDevices.length)
    (hh : st.handlers.protocolError = true)
    (ht : isProtocolTimedOut (st.networkDevices.getD i default) now 2000
      = true) :
    ((handleDeviceTimeout st now).1.networkDevices.getD i
      default).protocolState = ProtocolState.PROTOCOL_IDLE ∧
    Event.protocolErrorCb
      (some (handleProtocolTimeout (st.networkDevices.getD i default)))
      (some (-1)) ∈ (handleDeviceTimeout st now).2 := by
  rw [List.getD_eq_getElem st.networkDevices default hi] at ht
  constructor
  · have hi2 : i < (st.networkDevices.map
        (fun d => (handleDeviceTimeoutStep st.handlers now d).1)).length := by
      simpa using hi
    simp only [handleDeviceTimeout]
    rw [List.getD_eq_getElem _ default hi2, List.getElem_map]
    simp [handleDeviceTimeoutStep, ht, handleProtocolTimeout]
  · simp only [handleDeviceTimeout]
    refine List.mem_flatMap.mpr ⟨st.networkDevices[i], List.getElem_mem hi, ?_⟩
    rw [List.getD_eq_getElem st.networkDevices default hi]
    simp [handleDeviceTimeoutStep, ht, hh]

/-- Witness for the amended C3: the same stuck peer at age 2100 ms is timed
out, forced to IDLE, and reported with code -1. -/
theorem claim_C3_witness :
    0 < c3State.networkDevices.length ∧
    c3State.handlers.protocolError = true ∧
    isProtocolTimedOut (c3State.networkDevices.getD 0 default) 2100 2000
      = true ∧
    (((handleDeviceTimeout c3State 2100).1.networkDevices.getD 0
        default).protocolState = ProtocolState.PROTOCOL_IDLE ∧
      Event.protocolErrorCb
        (some (handleProtocolTimeout (c3State.networkDevices.getD 0 default)))
        (some (-1)) ∈ (handleDeviceTimeout c3State 2100).2) :=
  ⟨by decide, by decide, by decide,
   claim_C3_timeout_2000ms c3State 2100 0 (by decide) (by decide) (by decide)⟩

/-- The EUI of the discovery-scenario Tag. -/
def tagEUI : List Nat := [0x7D, 0x00, 0x22, 0xEA, 0x82, 0x60, 0x3B, 0x9C]

/-- A BLINK frame from that Tag (short address 0x7D00). -/
def blinkFrame : List Nat := generateBlinkFrame tagEUI (0x7D, 0x00)

/-- The intake-queue item handleReceived builds for that BLINK frame. -/
def blinkItem : MessageQueueItem :=
  { data := blinkFrame, sourceAddress := (0x7D, 0x00),
    messageType := some BLINK, timestamp := 5, processed := false }

/-- An Anchor with an empty peer table whose intake queue holds exactly the
BLINK item from the unknown Tag. -/
def c1State : RangingState :=
  { mkState ANCHOR [] with
      queue := { clearMessageQueue with
                   storage := clearMessageQueue.storage.set 0 blinkItem
                   tail := 1
                   count := 1 } }

/-- C1: the claim expects that taking a BLINK from an unknown Tag off the
intake queue adds a peer, transmits RANGING_INIT and fires the blink-peer
callback once.  In the code, processDeviceMessages consumes the item but —
the unknown source having no peer-table entry — never calls
processDeviceMessage: the table stays empty and no event fires.  The second
half shows the contrast: processDeviceMessage itself, called directly on
that BLINK as the repository test does, performs exactly the claimed add,
callback and RANGING_INIT transmission. -/
theorem claim_C1_blink_unknown_peer_dropped :
    ((processDeviceMessages c1State 0 0 11).1.networkDevices = [] ∧
     (processDeviceMessages c1State 0 0 11).2 = []) ∧
    ((processDeviceMessage (mkState ANCHOR []) none blinkFrame (some BLINK)
        0 0 11).1.networkDevices.length = 1 ∧
     Event.blinkDeviceCb (mkBlinkDevice tagEUI (0x7D, 0x00)) ∈
       (processDeviceMessage (mkState ANCHOR []) none blinkFrame (some BLINK)
         0 0 11).2 ∧
     Event.txFrame RANGING_INIT (0x7D, 0x00) ∈
       (processDeviceMessage (mkState ANCHOR []) none blinkFrame (some BLINK)
         0 0 11).2) := by
  decide

/-- A Tag with two Anchor peers, both expecting POLL_ACK after a broadcast
POLL. -/
def c6State : RangingState :=
  mkState TAG [mkPeer (1, 1) 0 MSG_POLL_ACK, mkPeer (2, 2) 1 MSG_POLL_ACK]

/-- C6: the claim expects that a POLL_ACK from the last peer in the table
sets expected-next to RANGE_REPORT for all peers and broadcasts RANGE.  The
code does broadcast RANGE, but flips expected-next only on the last peer
itself: peer 0 is left expecting POLL_ACK, so its upcoming RANGE_REPORT
will be rejected as unexpected. -/
theorem claim_C6_expected_only_last_peer :
    (((handleDeviceProtocolState c6State 1 (some POLL_ACK) 5555 7777
        42).1.networkDevices.getD 0 default).expectedMsgId = MSG_POLL_ACK ∧
     ((handleDeviceProtocolState c6State 1 (some POLL_ACK) 5555 7777
        42).1.networkDevices.getD 0 default).expectedMsgId
       ≠ MSG_RANGE_REPORT) ∧
    ((handleDeviceProtocolState c6State 1 (some POLL_ACK) 5555 7777
        42).1.networkDevices.getD 1 default).expectedMsgId
      = MSG_RANGE_REPORT ∧
    Event.txFrame RANGE (0xFF, 0xFF) ∈
      (handleDeviceProtocolState c6State 1 (some POLL_ACK) 5555 7777 42).2 := by
  decide

end DW1000R
